import Mathlib

/-!
Verification of the gitgauge batch-and-synthesize analysis pipeline.

The definitions below are a shallow embedding of the Python sources:
 * `analysis_service/app.py` — token estimation, batching (`create_batches`),
   the `/analyze` handler (`analyze_code`) with its cache-check, size filter,
   map stage, synthesis stage with fallback, and durable-tier upsert;
 * `analysis_service/cache.py` — the lazily-initialized Redis client and the
   best-effort fast-tier cache operations.

A Python `dict[str, str]` is an ordered mapping with unique keys; it is
embedded as an association list `List (String × String)` in insertion order.
The completion oracle (Groq chat API) is external nondeterminism; it is
embedded as environment functions: `mapOracle i` is the outcome of the
oracle call for batch index `i` (`none` = the call raised), and `synthOracle`
is the outcome of the synthesis call.  Database reads are modelled over a
row list; a write failure is the `dbWriteOk = false` environment.
-/

set_option maxRecDepth 40000

/-- `estimate_tokens` from app.py: `len(text) // 4`. -/
def estimate_tokens (text : String) : Nat :=
  text.length / 4

/-- Worker loop of `create_batches`: walks the remaining files carrying the
accumulating batch `cur` and its running token total `tok`, exactly as the
Python `for` loop carries `current_batch` / `current_batch_tokens`. -/
def create_batchesAux (maxT : Nat) :
    List (String × String) → List (String × String) → Nat → List (List (String × String))
  | [], cur, _ => if cur = [] then [] else [cur]
  | (fp, c) :: rest, cur, tok =>
    if estimate_tokens c > maxT then
      (if cur = [] then [] else [cur]) ++ [(fp, c)] :: create_batchesAux maxT rest [] 0
    else if tok + (estimate_tokens c + 100) ≤ maxT then
      create_batchesAux maxT rest (cur ++ [(fp, c)]) (tok + (estimate_tokens c + 100))
    else
      (if cur = [] then [] else [cur]) ++ create_batchesAux maxT rest [(fp, c)] (estimate_tokens c + 100)

/-- `create_batches` from app.py (default budget 6000). -/
def create_batches (contents : List (String × String))
    (max_tokens_per_batch : Nat := 6000) : List (List (String × String)) :=
  create_batchesAux max_tokens_per_batch contents [] 0

/-- Estimated size of a batch the way the loop accounts for it: the sum over
its files of `len(content) // 4 + 100` (the per-file formatted overhead). -/
def batchTokens (b : List (String × String)) : Nat :=
  (b.map (fun fc => estimate_tokens fc.2 + 100)).sum

theorem create_batchesAux_flatten (maxT : Nat) (files : List (String × String)) :
    ∀ (cur : List (String × String)) (tok : Nat),
      (create_batchesAux maxT files cur tok).flatten = cur ++ files := by
  induction files with
  | nil =>
    intro cur tok
    by_cases h : cur = [] <;> simp [create_batchesAux, h]
  | cons head rest ih =>
    intro cur tok
    obtain ⟨fp, c⟩ := head
    by_cases h1 : estimate_tokens c > maxT
    · by_cases h : cur = [] <;>
        simp [create_batchesAux, h1, h, ih]
    · by_cases h2 : tok + (estimate_tokens c + 100) ≤ maxT
      · simp [create_batchesAux, h1, h2, ih]
      · by_cases h : cur = [] <;>
          simp [create_batchesAux, h1, h2, h, ih]

theorem create_batches_flatten (contents : List (String × String)) (maxT : Nat) :
    (create_batches contents maxT).flatten = contents := by
  simpa using create_batchesAux_flatten maxT contents [] 0

/-- Claim C1: for every FileSet (ordered mapping with unique paths) and every
positive token budget, `create_batches` partitions the input exactly: the
concatenation of the output batches is the input file list itself (so every
file lands in exactly one batch, no path is duplicated, and insertion order
is preserved across batch boundaries), and the empty FileSet yields the empty
batch sequence. -/
theorem create_batches_exact_partition (contents : List (String × String)) (maxT : Nat)
    (hpos : 0 < maxT) (hnd : (contents.map Prod.fst).Nodup) :
    (create_batches contents maxT).flatten = contents ∧
    ((create_batches contents maxT).flatten.map Prod.fst).Nodup ∧
    (contents = [] → create_batches contents maxT = []) := by
  refine ⟨create_batches_flatten contents maxT, ?_, ?_⟩
  · rw [create_batches_flatten contents maxT]; exact hnd
  · intro h; subst h; rfl

theorem create_batches_exact_partition_witness :
    0 < 6000 ∧ ((([("a.py", "aaaaaaaa"), ("b.py", "bbbb")] : List (String × String)).map Prod.fst).Nodup) ∧
    ((create_batches [("a.py", "aaaaaaaa"), ("b.py", "bbbb")] 6000).flatten
        = [("a.py", "aaaaaaaa"), ("b.py", "bbbb")] ∧
      ((create_batches [("a.py", "aaaaaaaa"), ("b.py", "bbbb")] 6000).flatten.map Prod.fst).Nodup ∧
      ([("a.py", "aaaaaaaa"), ("b.py", "bbbb")] = ([] : List (String × String)) →
        create_batches [("a.py", "aaaaaaaa"), ("b.py", "bbbb")] 6000 = [])) :=
  ⟨by decide, by decide,
    create_batches_exact_partition [("a.py", "aaaaaaaa"), ("b.py", "bbbb")] 6000
      (by decide) (by decide)⟩

/-- A batch is within the budget, or is a singleton whose single file's
contribution `len // 4 + 100` exceeds the budget.  This is the invariant the
loop actually maintains (the claim's version, with `len // 4 > budget` in the
singleton clause, is refuted by the 200-character counterexample below). -/
def goodBatch (maxT : Nat) (b : List (String × String)) : Prop :=
  batchTokens b ≤ maxT ∨ ∃ fp c, b = [(fp, c)] ∧ maxT < estimate_tokens c + 100

theorem batchTokens_append_single (cur : List (String × String)) (fp c : String) :
    batchTokens (cur ++ [(fp, c)]) = batchTokens cur + (estimate_tokens c + 100) := by
  simp [batchTokens]

theorem create_batchesAux_budget (maxT : Nat) (files : List (String × String)) :
    ∀ (cur : List (String × String)) (tok : Nat),
      batchTokens cur = tok → goodBatch maxT cur →
      ∀ b ∈ create_batchesAux maxT files cur tok, goodBatch maxT b := by
  induction files with
  | nil =>
    intro cur tok _ hgood b hb
    by_cases h : cur = [] <;> simp [create_batchesAux, h] at hb
    · exact hb ▸ hgood
  | cons head rest ih =>
    intro cur tok htok hgood b hb
    obtain ⟨fp, c⟩ := head
    by_cases h1 : estimate_tokens c > maxT
    · simp only [create_batchesAux, if_pos h1] at hb
      rcases List.mem_append.1 hb with hcur | hrest
      · by_cases h : cur = [] <;> simp [h] at hcur
        · exact hcur ▸ hgood
      · rcases List.mem_cons.1 hrest with hsing | hrec
        · exact Or.inr ⟨fp, c, hsing, by omega⟩
        · exact ih [] 0 (by simp [batchTokens]) (Or.inl (by simp [batchTokens])) b hrec
    · by_cases h2 : tok + (estimate_tokens c + 100) ≤ maxT
      · simp only [create_batchesAux, if_neg h1, if_pos h2] at hb
        refine ih (cur ++ [(fp, c)]) (tok + (estimate_tokens c + 100)) ?_ ?_ b hb
        · rw [batchTokens_append_single, htok]
        · exact Or.inl (by rw [batchTokens_append_single, htok]; exact h2)
      · simp only [create_batchesAux, if_neg h1, if_neg h2] at hb
        rcases List.mem_append.1 hb with hcur | hrec
        · by_cases h : cur = [] <;> simp [h] at hcur
          · exact hcur ▸ hgood
        · refine ih [(fp, c)] (estimate_tokens c + 100) (by simp [batchTokens]) ?_ b hrec
          by_cases h3 : estimate_tokens c + 100 ≤ maxT
          · exact Or.inl (by simp [batchTokens]; omega)
          · exact Or.inr ⟨fp, c, rfl, by omega⟩

theorem create_batchesAux_oversized (maxT : Nat) (fp c : String)
    (hov : maxT < estimate_tokens c) (files : List (String × String)) :
    ∀ (cur : List (String × String)) (tok : Nat), (fp, c) ∈ files →
      [(fp, c)] ∈ create_batchesAux maxT files cur tok := by
  induction files with
  | nil => intro cur tok h; simp at h
  | cons head rest ih =>
    intro cur tok hmem
    obtain ⟨fp', c'⟩ := head
    rcases List.mem_cons.1 hmem with hhead | htail
    · have hc : c = c' := (Prod.ext_iff.1 hhead).2
      simp only [create_batchesAux, if_pos (by rw [← hc]; omega : estimate_tokens c' > maxT)]
      rw [hhead]
      exact List.mem_append_right _ (List.mem_cons_self _ _)
    · by_cases h1 : estimate_tokens c' > maxT
      · simp only [create_batchesAux, if_pos h1]
        exact List.mem_append_right _ (List.mem_cons_of_mem _ (ih [] 0 htail))
      · by_cases h2 : tok + (estimate_tokens c' + 100) ≤ maxT
        · simp only [create_batchesAux, if_neg h1, if_pos h2]
          exact ih _ _ htail
        · simp only [create_batchesAux, if_neg h1, if_neg h2]
          exact List.mem_append_right _ (ih _ _ htail)

/-- Claim C2 (amended): every batch emitted by `create_batches` has estimated
size (sum of `len(content) // 4 + 100` over its files) at most the budget,
unless it is a singleton batch whose single file's contribution
`len(content) // 4 + 100` exceeds the budget (the code only guarantees the
strictly-oversized-file case `len // 4 > budget` for the flush-and-isolate
rule); and a file with `len(content) // 4` strictly greater than the budget
always becomes its own singleton batch regardless of its neighbors. -/
theorem create_batches_budget_invariant (contents : List (String × String)) (maxT : Nat)
    (b : List (String × String)) (hb : b ∈ create_batches contents maxT) :
    (batchTokens b ≤ maxT ∨ ∃ fp c, b = [(fp, c)] ∧ maxT < estimate_tokens c + 100) ∧
    (∀ fp c, (fp, c) ∈ contents → maxT < estimate_tokens c →
      [(fp, c)] ∈ create_batches contents maxT) := by
  constructor
  · exact create_batchesAux_budget maxT contents [] 0 (by simp [batchTokens])
      (Or.inl (by simp [batchTokens])) b hb
  · intro fp c hmem hov
    exact create_batchesAux_oversized maxT fp c hov contents [] 0 hmem

/-- A 200-character file: `len // 4 = 50`. -/
def bigFile : String := String.mk (List.replicate 200 'x')

/-- Claim C2 as stated is false: with budget 50, the single 200-character file
(`len // 4 = 50`, not oversized since `50 > 50` fails) forms a singleton batch
whose estimated size `50 + 100 = 150` exceeds the budget, yet the claim only
permits over-budget batches when the file is strictly oversized. -/
theorem create_batches_budget_counterexample :
    create_batches [("a.py", bigFile)] 50 = [[("a.py", bigFile)]] ∧
    batchTokens [("a.py", bigFile)] = 150 ∧
    ¬ batchTokens [("a.py", bigFile)] ≤ 50 ∧
    estimate_tokens bigFile = 50 ∧
    ¬ 50 < estimate_tokens bigFile := by
  refine ⟨by decide, by decide, by decide, by decide, by decide⟩

theorem create_batches_budget_invariant_witness :
    [("a.py", bigFile)] ∈ create_batches [("a.py", bigFile)] 50 ∧
    ((batchTokens [("a.py", bigFile)] ≤ 50 ∨
        ∃ fp c, [("a.py", bigFile)] = [(fp, c)] ∧ 50 < estimate_tokens c + 100) ∧
      (∀ fp c, (fp, c) ∈ [("a.py", bigFile)] → 50 < estimate_tokens c →
        [(fp, c)] ∈ create_batches [("a.py", bigFile)] 50)) :=
  ⟨by decide,
    create_batches_budget_invariant [("a.py", bigFile)] 50 [("a.py", bigFile)] (by decide)⟩

/-!
## The `/analyze` handler

`analyze_code` (app.py) is embedded as a deterministic function of the
request, the durable-tier row list, and an environment capturing the
process configuration and the external oracle's behavior for this run.
-/

/-- A row of the `analyses` table (models.py), restricted to the columns the
handler reads and writes (the surrogate id and the timestamps are managed by
the database and never influence the handler's visible behavior). -/
structure Analysis where
  owner : String
  repo : String
  ref : String
  summary : String
  analysis : String
  files_analyzed : Nat
  batches_processed : Nat
  batches_failed : Nat
deriving DecidableEq, Repr

/-- The request body of `POST /analyze` (`AnalyzeRequest` in app.py). -/
structure AnalyzeRequest where
  owner : String
  repo : String
  ref : String
  contents : List (String × String)
  force_reanalysis : Bool := false

/-- The `repository` sub-object of the handler's result.  The cache-hit path
builds this dict without the `files_skipped` and `total_files` keys, hence
those two fields are `Option`-valued. -/
structure RepositoryInfo where
  owner : String
  repo : String
  ref : String
  files_analyzed : Nat
  files_skipped : Option Nat
  total_files : Option Nat
  batches_processed : Nat
  batches_failed : Nat
deriving DecidableEq, Repr

/-- The handler's result dict. -/
structure AnalyzeResponse where
  summary : String
  analysis : String
  repository : RepositoryInfo
  cached : Bool
deriving DecidableEq, Repr

/-- A FastAPI `HTTPException(status_code, detail)`. -/
structure HTTPException where
  status_code : Nat
  detail : String
deriving DecidableEq, Repr

/-- Outcome of one request: the returned dict or the raised HTTPException. -/
inductive HandlerResult where
  | ok (resp : AnalyzeResponse)
  | error (e : HTTPException)
deriving DecidableEq, Repr

/-- Environment of one run of the handler: configuration read from the
process environment, the completion oracle's behavior (per-batch map call
outcomes and the synthesis call outcome; `none` models any oracle-side
fault raised by the client call), and whether the durable-tier commit
succeeds. -/
structure Env where
  max_file_size_kb : Nat := 5
  groq_api_key : Bool := true
  mapOracle : Nat → Option String
  synthOracle : Option String
  dbWriteOk : Bool := true

/-- One run's full observable outcome: the response or exception, the
durable tier after the run, the batch indices sent to the oracle in the map
stage (in call order), and the number of synthesis calls attempted. -/
structure AnalyzeOutcome where
  response : HandlerResult
  db : List Analysis
  mapCalls : List Nat
  synthCalls : Nat
deriving DecidableEq, Repr

/-- Python truthiness on the stored text: text preceding the first `"\n"`
(`text.split("\n")[0]`). -/
def firstLineChars : List Char → List Char
  | [] => []
  | ch :: cs => if ch = '\n' then [] else ch :: firstLineChars cs

def firstLine (s : String) : String := String.mk (firstLineChars s.data)

/-- `result["summary"]` on the fresh path:
`analysis_text.split("\n")[0] if analysis_text else "Analysis completed"`. -/
def reportSummary (analysis_text : String) : String :=
  if analysis_text = "" then "Analysis completed" else firstLine analysis_text

/-- The cache-hit `summary`:
`cached.summary or cached.analysis.split("\n")[0] if cached.analysis else "Analysis completed"`
(in Python, `or` binds tighter than the conditional expression). -/
def cachedSummary (row : Analysis) : String :=
  if row.analysis = "" then "Analysis completed"
  else if row.summary = "" then firstLine row.analysis
  else row.summary

/-- The result dict of the cache-hit path (note: no `files_skipped`,
no `total_files`, `cached = True`). -/
def cachedResponse (row : Analysis) : AnalyzeResponse :=
  { summary := cachedSummary row
    analysis := row.analysis
    repository :=
      { owner := row.owner, repo := row.repo, ref := row.ref
        files_analyzed := row.files_analyzed
        files_skipped := none
        total_files := none
        batches_processed := row.batches_processed
        batches_failed := row.batches_failed }
    cached := true }

/-- The `.filter(owner == .., repo == .., ref == ..)` condition used by both
the cache lookup and the upsert lookup. -/
def keyMatches (req : AnalyzeRequest) (row : Analysis) : Bool :=
  row.owner == req.owner && row.repo == req.repo && row.ref == req.ref

/-- `file_size <= MAX_FILE_SIZE_BYTES` with `file_size = len(content.encode('utf-8'))`. -/
def withinLimit (maxBytes : Nat) (fc : String × String) : Bool :=
  decide (fc.2.utf8ByteSize ≤ maxBytes)

/-- `filtered_contents`: the files kept by the size ceiling, in order. -/
def sizeFilter (maxBytes : Nat) (contents : List (String × String)) : List (String × String) :=
  contents.filter (withinLimit maxBytes)

/-- `batch_summaries`: the map-stage loop collects, in batch order, the
oracle responses of the batches whose call did not raise. -/
def mapSummaries (oracle : Nat → Option String) (n : Nat) : List String :=
  (List.range n).filterMap oracle

/-- `failed_batches`: one increment per batch whose oracle call raised. -/
def mapFailures (oracle : Nat → Option String) (n : Nat) : Nat :=
  ((List.range n).filter (fun i => (oracle i).isNone)).length

/-- The fallback report built when the synthesis call raises. -/
def fallbackReport (all_summaries : String) : String :=
  "# Repository Analysis Summary\n\n" ++ all_summaries ++
    "\n\n[Note: Final synthesis failed, showing individual file summaries]"

/-- `analysis_text`: the synthesis response, or the fallback concatenation
of the successful batch summaries when the synthesis call raises. -/
def analysisText (env : Env) (summaries : List String) : String :=
  match env.synthOracle with
  | some t => t
  | none => fallbackReport (String.intercalate "\n\n" summaries)

/-- Starlette renders `str(HTTPException)` as `"{status_code}: {detail}"`. -/
def strOfHTTPException (e : HTTPException) : String :=
  toString e.status_code ++ ": " ++ e.detail

/-- The handler's outer `except Exception` clause: any exception raised in
the body is re-raised as `HTTPException(500, "Failed to analyze code: " + str(e))`. -/
def wrapOuter (e : HTTPException) : HTTPException :=
  { status_code := 500, detail := "Failed to analyze code: " ++ strOfHTTPException e }

/-- The 400 raised when the size ceiling filters out every file. -/
def emptyInputError (k : Nat) : HTTPException :=
  ⟨400, "All files exceed the " ++ toString k ++ " KB size limit. No files to analyze."⟩

/-- The 500 raised by `get_groq_client` when `GROQ_API_KEY` is missing. -/
def groqKeyError : HTTPException :=
  ⟨500, "GROQ_API_KEY environment variable is not set"⟩

/-- The 500 raised when every batch's map call failed. -/
def allBatchesError : HTTPException :=
  ⟨500, "All batches failed to process"⟩

/-- The row written to the durable tier after a fresh run. -/
def rowOfResponse (req : AnalyzeRequest) (resp : AnalyzeResponse) : Analysis :=
  { owner := req.owner, repo := req.repo, ref := req.ref
    summary := resp.summary
    analysis := resp.analysis
    files_analyzed := resp.repository.files_analyzed
    batches_processed := resp.repository.batches_processed
    batches_failed := resp.repository.batches_failed }

/-- The durable-tier write: update the first row with the request's key in
place, else insert a new row (the `existing`/`new_analysis` branches). -/
def upsertRow (req : AnalyzeRequest) (db : List Analysis) (row : Analysis) : List Analysis :=
  match db with
  | [] => [row]
  | r :: rs => if keyMatches req r then row :: rs else r :: upsertRow req rs row

/-- The `result` dict built on the fresh-computation path. -/
def freshResponse (env : Env) (req : AnalyzeRequest) : AnalyzeResponse :=
  let maxBytes := env.max_file_size_kb * 1024
  let filtered := sizeFilter maxBytes req.contents
  let n := (create_batches filtered 6000).length
  let text := analysisText env (mapSummaries env.mapOracle n)
  { summary := reportSummary text
    analysis := text
    repository :=
      { owner := req.owner, repo := req.repo, ref := req.ref
        files_analyzed := filtered.length
        files_skipped := some (req.contents.filter (fun fc => ! withinLimit maxBytes fc)).length
        total_files := some req.contents.length
        batches_processed := n
        batches_failed := mapFailures env.mapOracle n }
    cached := false }

/-- The successful fresh-computation outcome (reached when the cache missed,
some file survived the size ceiling, the API key is set, and at least one
batch summary was collected).  The durable-tier write error is swallowed:
the response is returned whether or not the commit succeeded. -/
def freshOutcome (env : Env) (db : List Analysis) (req : AnalyzeRequest) : AnalyzeOutcome :=
  { response := .ok (freshResponse env req)
    db := if env.dbWriteOk then upsertRow req db (rowOfResponse req (freshResponse env req)) else db
    mapCalls := List.range (create_batches (sizeFilter (env.max_file_size_kb * 1024) req.contents) 6000).length
    synthCalls := 1 }

/-- The `POST /analyze` handler, following app.py top to bottom: cache check
(skipped under `force_reanalysis`), size filter with its 400, `get_groq_client`
with its 500, batching, the map loop, the all-batches-failed 500, synthesis
with fallback, and the swallowed durable-tier upsert.  Every raised exception
passes through the outer `except` clause (`wrapOuter`). -/
def analyze_code (env : Env) (db : List Analysis) (req : AnalyzeRequest) : AnalyzeOutcome :=
  match (if req.force_reanalysis then none else db.find? (keyMatches req)) with
  | some row =>
    { response := .ok (cachedResponse row), db := db, mapCalls := [], synthCalls := 0 }
  | none =>
    let filtered := sizeFilter (env.max_file_size_kb * 1024) req.contents
    if filtered = [] then
      { response := .error (wrapOuter (emptyInputError env.max_file_size_kb))
        db := db, mapCalls := [], synthCalls := 0 }
    else if env.groq_api_key = false then
      { response := .error (wrapOuter groqKeyError), db := db, mapCalls := [], synthCalls := 0 }
    else
      let n := (create_batches filtered 6000).length
      if mapSummaries env.mapOracle n = [] then
        { response := .error (wrapOuter allBatchesError)
          db := db, mapCalls := List.range n, synthCalls := 0 }
      else
        freshOutcome env db req

/-!
## Helper lemmas about the handler's stages
-/

theorem mapSummaries_mapFailures_length (f : Nat → Option String) (l : List Nat) :
    (l.filterMap f).length + (l.filter (fun i => (f i).isNone)).length = l.length := by
  induction l with
  | nil => simp
  | cons a as ih => cases h : f a <;> simp [List.filterMap_cons, h, ← ih] <;> omega

theorem mapSummaries_length (f : Nat → Option String) (n : Nat) :
    (mapSummaries f n).length + mapFailures f n = n := by
  unfold mapSummaries mapFailures
  rw [mapSummaries_mapFailures_length]
  simp

theorem mapFailures_eq_zero (f : Nat → Option String) (n : Nat)
    (h : ∀ i, i < n → (f i).isSome) : mapFailures f n = 0 := by
  unfold mapFailures
  simp only [List.length_eq_zero, List.filter_eq_nil]
  intro a ha
  have hs := h a (List.mem_range.1 ha)
  cases hfa : f a with
  | none => rw [hfa] at hs; simp at hs
  | some v => simp [hfa]

theorem mapSummaries_eq_nil_of_all_none (f : Nat → Option String) (n : Nat)
    (h : ∀ i, i < n → f i = none) : mapSummaries f n = [] := by
  unfold mapSummaries
  rw [List.filterMap_eq_nil]
  intro a ha
  exact h a (List.mem_range.1 ha)

/-- Branch characterization: when the cache misses, some file survives the
size ceiling, the API key is present and at least one batch summary is
collected, the handler takes the fresh-computation path. -/
theorem analyze_code_fresh_eq (env : Env) (db : List Analysis) (req : AnalyzeRequest)
    (hmiss : (if req.force_reanalysis then none else db.find? (keyMatches req)) = none)
    (hne : sizeFilter (env.max_file_size_kb * 1024) req.contents ≠ [])
    (hkey : env.groq_api_key = true)
    (hsome : mapSummaries env.mapOracle
      (create_batches (sizeFilter (env.max_file_size_kb * 1024) req.contents) 6000).length ≠ []) :
    analyze_code env db req = freshOutcome env db req := by
  unfold analyze_code
  rw [hmiss]
  simp only [if_neg hne, hkey, Bool.true_eq_false, if_neg, if_neg hsome]
  simp

theorem find?_upsertRow (req : AnalyzeRequest) (db : List Analysis) (row : Analysis)
    (hmiss : db.find? (keyMatches req) = none)
    (hrow : keyMatches req row = true) :
    (upsertRow req db row).find? (keyMatches req) = some row := by
  induction db with
  | nil => simp [upsertRow, List.find?, hrow]
  | cons r rs ih =>
    cases hr : keyMatches req r with
    | true => simp [List.find?_cons, hr] at hmiss
    | false =>
      simp only [List.find?_cons, hr] at hmiss
      simp [upsertRow, hr, List.find?_cons, ih hmiss]

theorem keyMatches_rowOfResponse (req : AnalyzeRequest) (resp : AnalyzeResponse) :
    keyMatches req (rowOfResponse req resp) = true := by
  simp [keyMatches, rowOfResponse]

/-- A row whose `summary` column was derived from its `analysis` column the
way the fresh path derives it. -/
def rowWellFormed (row : Analysis) : Prop :=
  row.summary = reportSummary row.analysis

theorem cachedSummary_of_wellFormed (row : Analysis) (hwf : rowWellFormed row) :
    cachedSummary row = row.summary := by
  unfold rowWellFormed reportSummary at hwf
  unfold cachedSummary
  by_cases h1 : row.analysis = ""
  · simp [h1, hwf]
  · by_cases h2 : row.summary = ""
    · simp [h1, h2]
      rw [if_neg h1] at hwf
      rw [← hwf]
      exact h2
    · simp [h1, h2]

theorem rowOfResponse_fresh_wellFormed (env : Env) (req : AnalyzeRequest) :
    rowWellFormed (rowOfResponse req (freshResponse env req)) := by
  unfold rowWellFormed rowOfResponse freshResponse
  rfl

/-- Number of batches the fresh path creates for this request. -/
def nBatches (env : Env) (req : AnalyzeRequest) : Nat :=
  (create_batches (sizeFilter (env.max_file_size_kb * 1024) req.contents) 6000).length

/-!
## Substring utilities (used to state the fallback-notice counterexample)
-/

/-- `pat` occurs at the head of `s`. -/
def listStartsWith : List Char → List Char → Bool
  | [], _ => true
  | _ :: _, [] => false
  | p :: ps, s :: ss => p == s && listStartsWith ps ss

/-- `pat` occurs somewhere in `s`. -/
def listContainsSeq (pat : List Char) : List Char → Bool
  | [] => listStartsWith pat []
  | s :: ss => listStartsWith pat (s :: ss) || listContainsSeq pat ss

def strContains (s pat : String) : Bool := listContainsSeq pat.data s.data

/-- The characters of `s` strictly before the first occurrence of `pat`
(all of `s` if `pat` does not occur). -/
def charsBefore (pat : List Char) : List Char → List Char
  | [] => []
  | s :: ss => if listStartsWith pat (s :: ss) then [] else s :: charsBefore pat ss

def textBeforeMarker (s marker : String) : String := String.mk (charsBefore marker.data s.data)

/-- The response of an outcome, with a dummy value on the exception case. -/
def responseOf (o : AnalyzeOutcome) : AnalyzeResponse :=
  match o.response with
  | .ok r => r
  | .error _ =>
    { summary := "", analysis := ""
      repository :=
        { owner := "", repo := "", ref := "", files_analyzed := 0, files_skipped := none
          total_files := none, batches_processed := 0, batches_failed := 0 }
      cached := false }

/-!
## Concrete fixtures
-/

/-- A small request: one 8-byte file, well under the 5 KB ceiling. -/
def reqSmall : AnalyzeRequest :=
  { owner := "o", repo := "r", ref := "main", contents := [("main.py", "print(1)")]
    force_reanalysis := false }

/-- Map call succeeds, synthesis call raises. -/
def envC3 : Env := { mapOracle := fun _ => some "BATCHSUMMARYONE", synthOracle := none }

/-- Claim C3 (amended): if the synthesis oracle call fails after at least one
batch succeeded in the map stage, the pipeline does not fail: the returned
`analysis` text is exactly the fallback header `"# Repository Analysis
Summary"` followed by the blank-line-separated concatenation of all
successful batch summaries verbatim and a trailing visible note that
synthesis failed (the failure note ends the report rather than beginning
it), and `batches_failed` reflects only map-stage failures (0 when all
batches succeeded). -/
theorem synthesis_fallback_report (env : Env) (db : List Analysis) (req : AnalyzeRequest)
    (hmiss : (if req.force_reanalysis then none else db.find? (keyMatches req)) = none)
    (hne : sizeFilter (env.max_file_size_kb * 1024) req.contents ≠ [])
    (hkey : env.groq_api_key = true)
    (hsynth : env.synthOracle = none)
    (hsome : mapSummaries env.mapOracle (nBatches env req) ≠ []) :
    ∃ resp, (analyze_code env db req).response = .ok resp ∧
      resp.analysis = "# Repository Analysis Summary\n\n" ++
        String.intercalate "\n\n" (mapSummaries env.mapOracle (nBatches env req)) ++
        "\n\n[Note: Final synthesis failed, showing individual file summaries]" ∧
      resp.repository.batches_failed = mapFailures env.mapOracle (nBatches env req) ∧
      ((∀ i, i < nBatches env req → (env.mapOracle i).isSome) →
        resp.repository.batches_failed = 0) := by
  rw [analyze_code_fresh_eq env db req hmiss hne hkey (by unfold nBatches at hsome; exact hsome)]
  refine ⟨freshResponse env req, rfl, ?_, ?_, ?_⟩
  · show analysisText env (mapSummaries env.mapOracle (nBatches env req)) = _
    unfold analysisText
    rw [hsynth]
    rfl
  · rfl
  · intro hall
    show mapFailures env.mapOracle (nBatches env req) = 0
    exact mapFailures_eq_zero env.mapOracle (nBatches env req) hall

theorem synthesis_fallback_report_witness :
    ((if reqSmall.force_reanalysis then none else ([] : List Analysis).find? (keyMatches reqSmall)) = none) ∧
    sizeFilter (envC3.max_file_size_kb * 1024) reqSmall.contents ≠ [] ∧
    envC3.groq_api_key = true ∧
    envC3.synthOracle = none ∧
    mapSummaries envC3.mapOracle (nBatches envC3 reqSmall) ≠ [] ∧
    (∃ resp, (analyze_code envC3 [] reqSmall).response = .ok resp ∧
      resp.analysis = "# Repository Analysis Summary\n\n" ++
        String.intercalate "\n\n" (mapSummaries envC3.mapOracle (nBatches envC3 reqSmall)) ++
        "\n\n[Note: Final synthesis failed, showing individual file summaries]" ∧
      resp.repository.batches_failed = mapFailures envC3.mapOracle (nBatches envC3 reqSmall) ∧
      ((∀ i, i < nBatches envC3 reqSmall → (envC3.mapOracle i).isSome) →
        resp.repository.batches_failed = 0)) :=
  ⟨by decide, by decide, rfl, rfl, by decide,
    synthesis_fallback_report envC3 [] reqSmall (by decide) (by decide) rfl rfl (by decide)⟩

/-- Claim C3 as stated is false on its "begins with" part: on a run where the
single batch succeeds with summary `"BATCHSUMMARYONE"` and the synthesis call
fails, the returned report is the fallback text, whose prefix before the
summaries is the generic header `"# Repository Analysis Summary\n\n"` — it
contains no mention of failure or synthesis; the visible note that synthesis
failed is the report's suffix, not its beginning. -/
theorem synthesis_fallback_counterexample :
    (analyze_code envC3 [] reqSmall).response = .ok (responseOf (analyze_code envC3 [] reqSmall)) ∧
    (responseOf (analyze_code envC3 [] reqSmall)).analysis =
      "# Repository Analysis Summary\n\nBATCHSUMMARYONE\n\n[Note: Final synthesis failed, showing individual file summaries]" ∧
    textBeforeMarker (responseOf (analyze_code envC3 [] reqSmall)).analysis "BATCHSUMMARYONE" =
      "# Repository Analysis Summary\n\n" ∧
    strContains (textBeforeMarker (responseOf (analyze_code envC3 [] reqSmall)).analysis "BATCHSUMMARYONE") "fail" = false ∧
    strContains (textBeforeMarker (responseOf (analyze_code envC3 [] reqSmall)).analysis "BATCHSUMMARYONE") "Fail" = false ∧
    strContains (textBeforeMarker (responseOf (analyze_code envC3 [] reqSmall)).analysis "BATCHSUMMARYONE") "synthes" = false ∧
    strContains (textBeforeMarker (responseOf (analyze_code envC3 [] reqSmall)).analysis "BATCHSUMMARYONE") "Synthes" = false ∧
    strContains (responseOf (analyze_code envC3 [] reqSmall)).analysis "Final synthesis failed" = true ∧
    (responseOf (analyze_code envC3 [] reqSmall)).repository.batches_failed = 0 := by
  decide

/-- Claim C4: if N batches are created and K of their map-stage oracle calls
fail with 0 < K < N, each failure is isolated to its own batch: every batch
is sent to the oracle exactly once, in order, with no retry; the synthesis
stage still runs (one synthesis call) on the N − K successful summaries; and
the final result reports `batches_failed = K` and `batches_processed = N`. -/
theorem partial_map_failure_isolated (env : Env) (db : List Analysis) (req : AnalyzeRequest)
    (hmiss : (if req.force_reanalysis then none else db.find? (keyMatches req)) = none)
    (hne : sizeFilter (env.max_file_size_kb * 1024) req.contents ≠ [])
    (hkey : env.groq_api_key = true)
    (hpos : 0 < mapFailures env.mapOracle (nBatches env req))
    (hlt : mapFailures env.mapOracle (nBatches env req) < nBatches env req) :
    ∃ resp, (analyze_code env db req).response = .ok resp ∧
      resp.repository.batches_processed = nBatches env req ∧
      resp.repository.batches_failed = mapFailures env.mapOracle (nBatches env req) ∧
      (mapSummaries env.mapOracle (nBatches env req)).length =
        nBatches env req - mapFailures env.mapOracle (nBatches env req) ∧
      (analyze_code env db req).mapCalls = List.range (nBatches env req) ∧
      (analyze_code env db req).synthCalls = 1 := by
  have hlen := mapSummaries_length env.mapOracle (nBatches env req)
  have hsome : mapSummaries env.mapOracle (nBatches env req) ≠ [] := by
    intro hnil
    rw [hnil] at hlen
    simp at hlen
    omega
  rw [analyze_code_fresh_eq env db req hmiss hne hkey (by unfold nBatches at hsome; exact hsome)]
  exact ⟨freshResponse env req, rfl, rfl, rfl, by omega, rfl, rfl⟩

/-- Two map calls: batch 0 fails, batch 1 succeeds; synthesis succeeds. -/
def envC4 : Env :=
  { mapOracle := fun i => if i = 0 then none else some "SECOND BATCH SUMMARY"
    synthOracle := some "FINAL REPORT\nbody" }

/-- 28 files of 480 characters (120 estimated tokens each, 220 with the
formatting overhead): the first 27 fill one batch (5940 ≤ 6000), the 28th
starts a second batch, so the run creates exactly two batches. -/
def manyFiles : List (String × String) :=
  (List.range 28).map (fun i => ("f" ++ toString i ++ ".py", String.mk (List.replicate 480 'x')))

def reqManyFiles : AnalyzeRequest :=
  { owner := "o", repo := "r", ref := "main", contents := manyFiles, force_reanalysis := false }

theorem partial_map_failure_isolated_witness :
    ((if reqManyFiles.force_reanalysis then none else ([] : List Analysis).find? (keyMatches reqManyFiles)) = none) ∧
    sizeFilter (envC4.max_file_size_kb * 1024) reqManyFiles.contents ≠ [] ∧
    envC4.groq_api_key = true ∧
    0 < mapFailures envC4.mapOracle (nBatches envC4 reqManyFiles) ∧
    mapFailures envC4.mapOracle (nBatches envC4 reqManyFiles) < nBatches envC4 reqManyFiles ∧
    nBatches envC4 reqManyFiles = 2 ∧
    (∃ resp, (analyze_code envC4 [] reqManyFiles).response = .ok resp ∧
      resp.repository.batches_processed = nBatches envC4 reqManyFiles ∧
      resp.repository.batches_failed = mapFailures envC4.mapOracle (nBatches envC4 reqManyFiles) ∧
      (mapSummaries envC4.mapOracle (nBatches envC4 reqManyFiles)).length =
        nBatches envC4 reqManyFiles - mapFailures envC4.mapOracle (nBatches envC4 reqManyFiles) ∧
      (analyze_code envC4 [] reqManyFiles).mapCalls = List.range (nBatches envC4 reqManyFiles) ∧
      (analyze_code envC4 [] reqManyFiles).synthCalls = 1) :=
  ⟨by decide, by decide, rfl, by decide, by decide, by decide,
    partial_map_failure_isolated envC4 [] reqManyFiles (by decide) (by decide) rfl
      (by decide) (by decide)⟩

/-- Claim C5: if every batch's map-stage oracle call fails (zero successful
summaries), the handler reports the total-map-failure fault to the caller
(the "All batches failed to process" 500, re-surfaced through the outer
clause) and performs no durable-tier write: the row list is unchanged, and
no synthesis call is made. -/
theorem total_map_failure_no_write (env : Env) (db : List Analysis) (req : AnalyzeRequest)
    (hmiss : (if req.force_reanalysis then none else db.find? (keyMatches req)) = none)
    (hne : sizeFilter (env.max_file_size_kb * 1024) req.contents ≠ [])
    (hkey : env.groq_api_key = true)
    (hall : ∀ i, i < nBatches env req → env.mapOracle i = none) :
    (analyze_code env db req).response = .error (wrapOuter allBatchesError) ∧
    (analyze_code env db req).db = db ∧
    (analyze_code env db req).synthCalls = 0 := by
  have hnil : mapSummaries env.mapOracle (nBatches env req) = [] :=
    mapSummaries_eq_nil_of_all_none env.mapOracle (nBatches env req) hall
  unfold nBatches at hnil
  unfold analyze_code
  rw [hmiss]
  simp only [if_neg hne, hkey, Bool.true_eq_false, if_pos hnil]
  simp [hnil]

/-- Every map call fails; the synthesis oracle would succeed but is never
reached. -/
def envC5 : Env := { mapOracle := fun _ => none, synthOracle := some "NEVER REACHED" }

def rowOther : Analysis :=
  { owner := "other", repo := "other", ref := "dev", summary := "s", analysis := "a"
    files_analyzed := 1, batches_processed := 1, batches_failed := 0 }

theorem total_map_failure_no_write_witness :
    ((if reqSmall.force_reanalysis then none else [rowOther].find? (keyMatches reqSmall)) = none) ∧
    sizeFilter (envC5.max_file_size_kb * 1024) reqSmall.contents ≠ [] ∧
    envC5.groq_api_key = true ∧
    (∀ i, i < nBatches envC5 reqSmall → envC5.mapOracle i = none) ∧
    ((analyze_code envC5 [rowOther] reqSmall).response = .error (wrapOuter allBatchesError) ∧
      (analyze_code envC5 [rowOther] reqSmall).db = [rowOther] ∧
      (analyze_code envC5 [rowOther] reqSmall).synthCalls = 0) :=
  ⟨by decide, by decide, rfl, fun i _ => rfl,
    total_map_failure_no_write envC5 [rowOther] reqSmall (by decide) (by decide) rfl
      (fun i _ => rfl)⟩

/-- Claim C6 (amended): running the handler twice for the same
(owner, repo, ref) with `force_reanalysis = false`, when the first run
computed fresh and its durable-tier write succeeded, makes the second call
return the stored row as a cache hit without invoking the completion oracle
at all (no map calls, no synthesis call; the durable tier is checked first
and the hit short-circuits batching, map and reduce) and without writing;
the second response agrees with the first on `summary`, `analysis`,
`files_analyzed`, `batches_processed` and `batches_failed` — but it is not
the identical result object: it is flagged `cached` and omits the
`files_skipped` and `total_files` keys the fresh result carried. -/
theorem cache_hit_idempotent (env1 env2 : Env) (db : List Analysis) (req : AnalyzeRequest)
    (hforce : req.force_reanalysis = false)
    (hmiss : db.find? (keyMatches req) = none)
    (hwrite : env1.dbWriteOk = true)
    (hne : sizeFilter (env1.max_file_size_kb * 1024) req.contents ≠ [])
    (hkey : env1.groq_api_key = true)
    (hsome : mapSummaries env1.mapOracle (nBatches env1 req) ≠ []) :
    ∃ resp1 resp2,
      (analyze_code env1 db req).response = .ok resp1 ∧
      (analyze_code env2 (analyze_code env1 db req).db req).response = .ok resp2 ∧
      resp1.cached = false ∧
      resp2.cached = true ∧
      (analyze_code env2 (analyze_code env1 db req).db req).mapCalls = [] ∧
      (analyze_code env2 (analyze_code env1 db req).db req).synthCalls = 0 ∧
      (analyze_code env2 (analyze_code env1 db req).db req).db = (analyze_code env1 db req).db ∧
      resp2.summary = resp1.summary ∧
      resp2.analysis = resp1.analysis ∧
      resp2.repository.files_analyzed = resp1.repository.files_analyzed ∧
      resp2.repository.batches_processed = resp1.repository.batches_processed ∧
      resp2.repository.batches_failed = resp1.repository.batches_failed := by
  have hmiss' : (if req.force_reanalysis then none else db.find? (keyMatches req)) = none := by
    rw [hforce]
    simpa using hmiss
  have h1 : analyze_code env1 db req = freshOutcome env1 db req :=
    analyze_code_fresh_eq env1 db req hmiss' hne hkey (by unfold nBatches at hsome; exact hsome)
  rw [h1]
  have hdb1 : (freshOutcome env1 db req).db
      = upsertRow req db (rowOfResponse req (freshResponse env1 req)) := by
    unfold freshOutcome
    rw [hwrite]
    simp
  rw [hdb1]
  have hfind : (upsertRow req db (rowOfResponse req (freshResponse env1 req))).find? (keyMatches req)
      = some (rowOfResponse req (freshResponse env1 req)) :=
    find?_upsertRow req db _ hmiss (keyMatches_rowOfResponse req _)
  have h2 : analyze_code env2 (upsertRow req db (rowOfResponse req (freshResponse env1 req))) req
      = { response := .ok (cachedResponse (rowOfResponse req (freshResponse env1 req)))
          db := upsertRow req db (rowOfResponse req (freshResponse env1 req))
          mapCalls := [], synthCalls := 0 } := by
    unfold analyze_code
    rw [hforce]
    simp only [Bool.false_eq_true, if_false]
    rw [hfind]
  rw [h2]
  refine ⟨freshResponse env1 req, cachedResponse (rowOfResponse req (freshResponse env1 req)),
    rfl, rfl, rfl, rfl, rfl, rfl, rfl, ?_, rfl, rfl, rfl, rfl⟩
  show cachedSummary (rowOfResponse req (freshResponse env1 req)) = (freshResponse env1 req).summary
  rw [cachedSummary_of_wellFormed _ (rowOfResponse_fresh_wellFormed env1 req)]
  rfl

/-- A fully successful run: map call and synthesis call both succeed. -/
def envOk : Env :=
  { mapOracle := fun _ => some "FILE SUMMARY", synthOracle := some "REPORT TITLE\nreport body" }

theorem cache_hit_idempotent_witness :
    reqSmall.force_reanalysis = false ∧
    ([] : List Analysis).find? (keyMatches reqSmall) = none ∧
    envOk.dbWriteOk = true ∧
    sizeFilter (envOk.max_file_size_kb * 1024) reqSmall.contents ≠ [] ∧
    envOk.groq_api_key = true ∧
    mapSummaries envOk.mapOracle (nBatches envOk reqSmall) ≠ [] ∧
    (∃ resp1 resp2,
      (analyze_code envOk [] reqSmall).response = .ok resp1 ∧
      (analyze_code envOk (analyze_code envOk [] reqSmall).db reqSmall).response = .ok resp2 ∧
      resp1.cached = false ∧
      resp2.cached = true ∧
      (analyze_code envOk (analyze_code envOk [] reqSmall).db reqSmall).mapCalls = [] ∧
      (analyze_code envOk (analyze_code envOk [] reqSmall).db reqSmall).synthCalls = 0 ∧
      (analyze_code envOk (analyze_code envOk [] reqSmall).db reqSmall).db
        = (analyze_code envOk [] reqSmall).db ∧
      resp2.summary = resp1.summary ∧
      resp2.analysis = resp1.analysis ∧
      resp2.repository.files_analyzed = resp1.repository.files_analyzed ∧
      resp2.repository.batches_processed = resp1.repository.batches_processed ∧
      resp2.repository.batches_failed = resp1.repository.batches_failed) :=
  ⟨rfl, rfl, rfl, by decide, rfl, by decide,
    cache_hit_idempotent envOk envOk [] reqSmall rfl rfl rfl (by decide) rfl (by decide)⟩

/-- Claim C6 as stated is false on its equality part: for a concrete
successful first run, the second call is served from the cache and returns
the same `summary`, `analysis` and counts, but its result is not equal to
the first call's result — the cache-hit path flags `cached = True` and
builds the `repository` dict without the `files_skipped` and `total_files`
keys that the fresh result carried. -/
theorem cache_hit_result_counterexample :
    (responseOf (analyze_code envOk [] reqSmall)).cached = false ∧
    (responseOf (analyze_code envOk [] reqSmall)).repository.files_skipped = some 0 ∧
    (responseOf (analyze_code envOk [] reqSmall)).repository.total_files = some 1 ∧
    (responseOf (analyze_code envOk (analyze_code envOk [] reqSmall).db reqSmall)).cached = true ∧
    (responseOf (analyze_code envOk (analyze_code envOk [] reqSmall).db reqSmall)).repository.files_skipped = none ∧
    (responseOf (analyze_code envOk (analyze_code envOk [] reqSmall).db reqSmall)).repository.total_files = none ∧
    (responseOf (analyze_code envOk (analyze_code envOk [] reqSmall).db reqSmall)).analysis
      = (responseOf (analyze_code envOk [] reqSmall)).analysis ∧
    responseOf (analyze_code envOk (analyze_code envOk [] reqSmall).db reqSmall)
      ≠ responseOf (analyze_code envOk [] reqSmall) := by
  decide


/-- Exhaustive case enumeration of the handler's control flow. -/
theorem analyze_code_cases (env : Env) (db : List Analysis) (req : AnalyzeRequest) :
    (∃ row, (if req.force_reanalysis then none else db.find? (keyMatches req)) = some row ∧
      analyze_code env db req =
        { response := .ok (cachedResponse row), db := db, mapCalls := [], synthCalls := 0 }) ∨
    ((if req.force_reanalysis then none else db.find? (keyMatches req)) = none ∧
      (analyze_code env db req =
          { response := .error (wrapOuter (emptyInputError env.max_file_size_kb))
            db := db, mapCalls := [], synthCalls := 0 } ∨
        analyze_code env db req =
          { response := .error (wrapOuter groqKeyError), db := db, mapCalls := [], synthCalls := 0 } ∨
        analyze_code env db req =
          { response := .error (wrapOuter allBatchesError), db := db
            mapCalls := List.range (nBatches env req), synthCalls := 0 } ∨
        analyze_code env db req = freshOutcome env db req)) := by
  unfold analyze_code nBatches
  cases hscrut : (if req.force_reanalysis then none else db.find? (keyMatches req)) with
  | some row => exact Or.inl ⟨row, rfl, rfl⟩
  | none =>
    refine Or.inr ⟨rfl, ?_⟩
    by_cases hf : sizeFilter (env.max_file_size_kb * 1024) req.contents = []
    · exact Or.inl (by simp [hf])
    · by_cases hg : env.groq_api_key = false
      · exact Or.inr (Or.inl (by simp [hf, hg]))
      · by_cases hs : mapSummaries env.mapOracle
            (create_batches (sizeFilter (env.max_file_size_kb * 1024) req.contents) 6000).length = []
        · exact Or.inr (Or.inr (Or.inl (by simp [hf, hg, hs])))
        · exact Or.inr (Or.inr (Or.inr (by simp [hf, hg, hs])))

/-- Claim C7 (amended): a successful response built on the fresh path carries
all the aggregate counts — `files_analyzed`, `files_skipped`, `total_files`,
`batches_processed`, `batches_failed` — but a response served on the
cache-hit path carries only `files_analyzed`, `batches_processed` and
`batches_failed`: its `repository` dict has no `files_skipped` (and no
`total_files`) key, so skipped-file degradation is not observable on the
cached path. -/
theorem response_counts_by_path (env : Env) (db : List Analysis) (req : AnalyzeRequest)
    (resp : AnalyzeResponse) (h : (analyze_code env db req).response = .ok resp) :
    (resp.cached = false →
      resp.repository.files_skipped
          = some ((req.contents.filter (fun fc => ! withinLimit (env.max_file_size_kb * 1024) fc)).length) ∧
        resp.repository.total_files = some req.contents.length ∧
        resp.repository.files_analyzed = (sizeFilter (env.max_file_size_kb * 1024) req.contents).length ∧
        resp.repository.batches_processed = nBatches env req ∧
        resp.repository.batches_failed = mapFailures env.mapOracle (nBatches env req)) ∧
    (resp.cached = true →
      resp.repository.files_skipped = none ∧ resp.repository.total_files = none) := by
  rcases analyze_code_cases env db req with ⟨row, _, heq⟩ | ⟨_, heq | heq | heq | heq⟩ <;>
    rw [heq] at h
  · have hr : resp = cachedResponse row := by
      have h' := h
      simp only [HandlerResult.ok.injEq] at h'
      exact h'.symm
    subst hr
    refine ⟨fun hc => ?_, fun _ => ⟨rfl, rfl⟩⟩
    simp [cachedResponse] at hc
  · simp at h
  · simp at h
  · simp at h
  · have hr : resp = freshResponse env req := by
      have h' := h
      unfold freshOutcome at h'
      simp only [HandlerResult.ok.injEq] at h'
      exact h'.symm
    subst hr
    refine ⟨fun _ => ⟨rfl, rfl, rfl, ?_, ?_⟩, fun hc => ?_⟩
    · rfl
    · rfl
    · simp [freshResponse] at hc

theorem response_counts_by_path_witness :
    (analyze_code envOk [] reqSmall).response = .ok (responseOf (analyze_code envOk [] reqSmall)) ∧
    (((responseOf (analyze_code envOk [] reqSmall)).cached = false →
      (responseOf (analyze_code envOk [] reqSmall)).repository.files_skipped
          = some ((reqSmall.contents.filter
              (fun fc => ! withinLimit (envOk.max_file_size_kb * 1024) fc)).length) ∧
        (responseOf (analyze_code envOk [] reqSmall)).repository.total_files = some reqSmall.contents.length ∧
        (responseOf (analyze_code envOk [] reqSmall)).repository.files_analyzed
          = (sizeFilter (envOk.max_file_size_kb * 1024) reqSmall.contents).length ∧
        (responseOf (analyze_code envOk [] reqSmall)).repository.batches_processed = nBatches envOk reqSmall ∧
        (responseOf (analyze_code envOk [] reqSmall)).repository.batches_failed
          = mapFailures envOk.mapOracle (nBatches envOk reqSmall)) ∧
    ((responseOf (analyze_code envOk [] reqSmall)).cached = true →
      (responseOf (analyze_code envOk [] reqSmall)).repository.files_skipped = none ∧
        (responseOf (analyze_code envOk [] reqSmall)).repository.total_files = none)) :=
  ⟨by decide, response_counts_by_path envOk [] reqSmall (responseOf (analyze_code envOk [] reqSmall)) (by decide)⟩

/-- A durable-tier row for the same key as `reqSmall`. -/
def rowA : Analysis :=
  { owner := "o", repo := "r", ref := "main", summary := "STORED SUMMARY"
    analysis := "STORED SUMMARY\nstored body", files_analyzed := 3
    batches_processed := 2, batches_failed := 1 }

/-- Claim C7 as stated is false: a successful response served from the
cache-hit path does not include the `files_skipped` aggregate count (nor
`total_files`) — its `repository` dict is built without those keys — so a
partial-success run is not distinguishable from a clean run on that path. -/
theorem response_counts_counterexample :
    (analyze_code envOk [rowA] reqSmall).response = .ok (cachedResponse rowA) ∧
    (cachedResponse rowA).cached = true ∧
    (cachedResponse rowA).repository.files_skipped = none ∧
    (cachedResponse rowA).repository.total_files = none := by
  decide

theorem reportSummary_of_ne (x : String) (hx : x ≠ "") : reportSummary x = firstLine x := by
  unfold reportSummary
  rw [if_neg hx]

/-- Claim C8 (amended): for every result returned by the handler — fresh or
served from a durable-tier row that the pipeline itself wrote (its `summary`
column derived from its `analysis` column) — the `summary` field is
`reportSummary` of the returned `analysis` text: the first line of that text
whenever the text is non-empty, and the fixed string `"Analysis completed"`
when the text is empty (so `summary` is the first line of the report in
every run whose report is non-empty, but not in the empty-report corner). -/
theorem summary_first_line (env : Env) (db : List Analysis) (req : AnalyzeRequest)
    (hdb : ∀ row ∈ db, rowWellFormed row)
    (resp : AnalyzeResponse) (h : (analyze_code env db req).response = .ok resp) :
    resp.summary = reportSummary resp.analysis ∧
    (resp.analysis ≠ "" → resp.summary = firstLine resp.analysis) := by
  rcases analyze_code_cases env db req with ⟨row, hrow, heq⟩ | ⟨_, heq | heq | heq | heq⟩ <;>
    rw [heq] at h
  · have hmem : row ∈ db := by
      cases hforce : req.force_reanalysis with
      | true => rw [hforce] at hrow; simp at hrow
      | false =>
        rw [hforce] at hrow
        simp at hrow
        exact List.mem_of_find?_eq_some hrow
    have hwf := hdb row hmem
    have hr : resp = cachedResponse row := by
      simp only [HandlerResult.ok.injEq] at h
      exact h.symm
    subst hr
    have hsum : (cachedResponse row).summary = reportSummary (cachedResponse row).analysis := by
      show cachedSummary row = reportSummary row.analysis
      rw [cachedSummary_of_wellFormed row hwf]
      exact hwf
    refine ⟨hsum, fun hne => ?_⟩
    rw [hsum]
    exact reportSummary_of_ne _ hne
  · simp at h
  · simp at h
  · simp at h
  · have hr : resp = freshResponse env req := by
      unfold freshOutcome at h
      simp only [HandlerResult.ok.injEq] at h
      exact h.symm
    subst hr
    refine ⟨rfl, fun hne => ?_⟩
    exact reportSummary_of_ne _ hne

theorem summary_first_line_witness :
    (∀ row ∈ ([] : List Analysis), rowWellFormed row) ∧
    (analyze_code envOk [] reqSmall).response = .ok (responseOf (analyze_code envOk [] reqSmall)) ∧
    ((responseOf (analyze_code envOk [] reqSmall)).summary
        = reportSummary (responseOf (analyze_code envOk [] reqSmall)).analysis ∧
      ((responseOf (analyze_code envOk [] reqSmall)).analysis ≠ "" →
        (responseOf (analyze_code envOk [] reqSmall)).summary
          = firstLine (responseOf (analyze_code envOk [] reqSmall)).analysis)) :=
  ⟨by simp, by decide,
    summary_first_line envOk [] reqSmall (by simp)
      (responseOf (analyze_code envOk [] reqSmall)) (by decide)⟩

/-- Map call succeeds; the synthesis call succeeds but returns empty text. -/
def envEmptySynth : Env :=
  { mapOracle := fun _ => some "FILE SUMMARY", synthOracle := some "" }

/-- Claim C8 as stated is false: when the synthesis oracle returns empty
text, the handler returns `analysis = ""` whose first line is `""`, but sets
`summary` to the independently-authored fixed string `"Analysis completed"`
— so `summary` is not the first line of the returned report there. -/
theorem summary_first_line_counterexample :
    (analyze_code envEmptySynth [] reqSmall).response
      = .ok (responseOf (analyze_code envEmptySynth [] reqSmall)) ∧
    (responseOf (analyze_code envEmptySynth [] reqSmall)).analysis = "" ∧
    (responseOf (analyze_code envEmptySynth [] reqSmall)).summary = "Analysis completed" ∧
    firstLine (responseOf (analyze_code envEmptySynth [] reqSmall)).analysis = "" ∧
    (responseOf (analyze_code envEmptySynth [] reqSmall)).summary
      ≠ firstLine (responseOf (analyze_code envEmptySynth [] reqSmall)).analysis := by
  decide

theorem wrapOuter_detail_ne (inner : HTTPException) : (wrapOuter inner).detail ≠ inner.detail := by
  unfold wrapOuter strOfHTTPException
  intro hEq
  have hlen := congrArg String.length hEq
  simp only [String.length_append] at hlen
  have h24 : ("Failed to analyze code: " : String).length = 24 := by decide
  have h2 : (": " : String).length = 2 := by decide
  omega

/-- Claim C10: every request that fails after the handler body is entered —
including the 400 raised when the size ceiling removes every file and the
500 raised when every batch fails — surfaces to the caller through the outer
exception clause as a 500 whose detail is `"Failed to analyze code: "`
followed by the original exception's text; the originally chosen detail is
never preserved, and the originally chosen 400 status is replaced by 500. -/
theorem error_wrapped_500 (env : Env) (db : List Analysis) (req : AnalyzeRequest)
    (e : HTTPException) (h : (analyze_code env db req).response = .error e) :
    e.status_code = 500 ∧
    ∃ inner : HTTPException,
      (inner = emptyInputError env.max_file_size_kb ∨ inner = groqKeyError ∨ inner = allBatchesError) ∧
      e = wrapOuter inner ∧
      e.detail = "Failed to analyze code: " ++ strOfHTTPException inner ∧
      e.detail ≠ inner.detail ∧
      (inner.status_code = 400 → e.status_code ≠ inner.status_code) := by
  rcases analyze_code_cases env db req with ⟨row, _, heq⟩ | ⟨_, heq | heq | heq | heq⟩ <;>
    rw [heq] at h
  · simp at h
  · have he : e = wrapOuter (emptyInputError env.max_file_size_kb) := by
      simp only [HandlerResult.error.injEq] at h
      exact h.symm
    subst he
    exact ⟨rfl, emptyInputError env.max_file_size_kb, Or.inl rfl, rfl, rfl,
      wrapOuter_detail_ne _, fun _ => by simp [wrapOuter, emptyInputError]⟩
  · have he : e = wrapOuter groqKeyError := by
      simp only [HandlerResult.error.injEq] at h
      exact h.symm
    subst he
    exact ⟨rfl, groqKeyError, Or.inr (Or.inl rfl), rfl, rfl,
      wrapOuter_detail_ne _, fun h400 => absurd h400 (by decide)⟩
  · have he : e = wrapOuter allBatchesError := by
      simp only [HandlerResult.error.injEq] at h
      exact h.symm
    subst he
    exact ⟨rfl, allBatchesError, Or.inr (Or.inr rfl), rfl, rfl,
      wrapOuter_detail_ne _, fun h400 => absurd h400 (by decide)⟩
  · unfold freshOutcome at h
    simp at h

/-- Size ceiling of 0 KB: every file is filtered out, so the handler raises
the empty-input 400 and the outer clause re-surfaces it as a 500. -/
def envNoFiles : Env :=
  { max_file_size_kb := 0, mapOracle := fun _ => none, synthOracle := none }

theorem error_wrapped_500_witness :
    (analyze_code envNoFiles [] reqSmall).response
      = .error (wrapOuter (emptyInputError envNoFiles.max_file_size_kb)) ∧
    ((wrapOuter (emptyInputError envNoFiles.max_file_size_kb)).status_code = 500 ∧
      ∃ inner : HTTPException,
        (inner = emptyInputError envNoFiles.max_file_size_kb ∨ inner = groqKeyError ∨
          inner = allBatchesError) ∧
        wrapOuter (emptyInputError envNoFiles.max_file_size_kb) = wrapOuter inner ∧
        (wrapOuter (emptyInputError envNoFiles.max_file_size_kb)).detail
          = "Failed to analyze code: " ++ strOfHTTPException inner ∧
        (wrapOuter (emptyInputError envNoFiles.max_file_size_kb)).detail ≠ inner.detail ∧
        (inner.status_code = 400 →
          (wrapOuter (emptyInputError envNoFiles.max_file_size_kb)).status_code ≠ inner.status_code)) :=
  ⟨by decide,
    error_wrapped_500 envNoFiles [] reqSmall (wrapOuter (emptyInputError envNoFiles.max_file_size_kb))
      (by decide)⟩

/-!
## The fast-tier cache client (cache.py)

`get_redis_client` keeps one module-global `_redis_client`.  The environment
function `conn n` says whether the n-th connection attempt (connect + ping)
succeeds; `store` models the values the GET command returns on a live
connection, and `writeOk` whether the SETEX command succeeds.
-/

/-- The module state: whether `_redis_client` currently holds a client
object, plus a count of the connection attempts made so far (the trace that
lets one observe reconnection attempts). -/
structure CacheState where
  client : Bool
  attempts : Nat
deriving DecidableEq, Repr

/-- `get_redis_client`: if `_redis_client is None`, attempt a connection;
on failure log and set `_redis_client = None` again (it stays unset).
Returns whether a client is available, and the new module state. -/
def get_redis_client (conn : Nat → Bool) (s : CacheState) : Bool × CacheState :=
  if s.client then (true, s)
  else if conn s.attempts then (true, { client := true, attempts := s.attempts + 1 })
  else (false, { client := false, attempts := s.attempts + 1 })

/-- `_get_cache_key`. -/
def _get_cache_key (owner repo ref : String) : String :=
  "analysis:" ++ owner ++ ":" ++ repo ++ ":" ++ ref

/-- `get_cached_analysis`: `None` when no client is available (or on a read
error, folded into `store` returning `none`); never throws. -/
def get_cached_analysis (conn : Nat → Bool) (store : String → Option String)
    (owner repo ref : String) (s : CacheState) : Option String × CacheState :=
  match get_redis_client conn s with
  | (false, s') => (none, s')
  | (true, s') => (store (_get_cache_key owner repo ref), s')

/-- `set_cached_analysis`: `False` when no client is available; on a live
connection, the SETEX outcome; never throws. -/
def set_cached_analysis (conn : Nat → Bool) (writeOk : Bool)
    (owner repo ref : String) (s : CacheState) : Bool × CacheState :=
  match get_redis_client conn s with
  | (false, s') => (false, s')
  | (true, s') => (writeOk, s')

/-- The connection succeeds from the second attempt on. -/
def connSecondTry : Nat → Bool := fun n => decide (n ≠ 0)

/-- Claim C9 as stated is false: after the first failed connection attempt
the client is not demoted to a permanently-disabled no-op — `_redis_client`
is simply left unset, so the very next call to `get_redis_client` attempts
the connection again (the attempt counter advances), and if connectivity is
back it succeeds and returns a live client. -/
theorem redis_reconnect_counterexample :
    (get_redis_client connSecondTry ⟨false, 0⟩).1 = false ∧
    (get_redis_client connSecondTry ⟨false, 0⟩).2 = ⟨false, 1⟩ ∧
    (get_redis_client connSecondTry (get_redis_client connSecondTry ⟨false, 0⟩).2).1 = true ∧
    (get_redis_client connSecondTry (get_redis_client connSecondTry ⟨false, 0⟩).2).2.attempts = 2 := by
  decide

/-- Claim C9 (amended): after a failed fast-tier connection attempt the
client global merely stays unset, so every subsequent call re-attempts the
connection (one more attempt per call) rather than being permanently
disabled; while every attempt fails, the degraded behavior the claim
describes does hold — `get_redis_client` keeps returning no client,
`get_cached_analysis` returns none and `set_cached_analysis` returns false,
never throwing. -/
theorem redis_disabled_noop (conn : Nat → Bool) (store : String → Option String)
    (writeOk : Bool) (owner repo ref : String) (s : CacheState)
    (hdown : ∀ n, conn n = false) (hnoclient : s.client = false) :
    (get_redis_client conn s).1 = false ∧
    (get_redis_client conn s).2 = { client := false, attempts := s.attempts + 1 } ∧
    (get_cached_analysis conn store owner repo ref s).1 = none ∧
    (get_cached_analysis conn store owner repo ref s).2.attempts = s.attempts + 1 ∧
    (set_cached_analysis conn writeOk owner repo ref s).1 = false ∧
    (set_cached_analysis conn writeOk owner repo ref s).2.attempts = s.attempts + 1 := by
  have hg : get_redis_client conn s = (false, { client := false, attempts := s.attempts + 1 }) := by
    unfold get_redis_client
    rw [hnoclient, hdown s.attempts]
    simp
  refine ⟨by rw [hg], by rw [hg], ?_, ?_, ?_, ?_⟩ <;>
    simp [get_cached_analysis, set_cached_analysis, hg]

theorem redis_disabled_noop_witness :
    (∀ n, (fun _ : Nat => false) n = false) ∧
    (⟨false, 0⟩ : CacheState).client = false ∧
    ((get_redis_client (fun _ => false) ⟨false, 0⟩).1 = false ∧
      (get_redis_client (fun _ => false) ⟨false, 0⟩).2
        = { client := false, attempts := (⟨false, 0⟩ : CacheState).attempts + 1 } ∧
      (get_cached_analysis (fun _ => false) (fun _ => none) "o" "r" "main" ⟨false, 0⟩).1 = none ∧
      (get_cached_analysis (fun _ => false) (fun _ => none) "o" "r" "main" ⟨false, 0⟩).2.attempts
        = (⟨false, 0⟩ : CacheState).attempts + 1 ∧
      (set_cached_analysis (fun _ => false) true "o" "r" "main" ⟨false, 0⟩).1 = false ∧
      (set_cached_analysis (fun _ => false) true "o" "r" "main" ⟨false, 0⟩).2.attempts
        = (⟨false, 0⟩ : CacheState).attempts + 1) :=
  ⟨fun _ => rfl, rfl,
    redis_disabled_noop (fun _ => false) (fun _ => none) true "o" "r" "main" ⟨false, 0⟩
      (fun _ => rfl) rfl⟩
